import Mathlib

/-!
A shallow embedding of the RetroArch GekkoNet netplay adapter
(`src/network/netplay/netplay_gekkonet.c` together with the context layout
of `netplay_gekkonet.h`), and theorems about its behaviour.

Modelling conventions:

* C pointers that only matter as "null / non-null" become `Bool` or
  `Option` values; byte buffers become `List Nat` (one entry per byte).
* Calls into external collaborators (the GekkoNet rollback engine, the
  host save/load/run-frame callbacks, the OS socket layer) are recorded
  as elements of an action trace `Act`; their success or failure is an
  oracle parameter of the modelled function, since those collaborators
  live outside this translation unit.
* Heap allocation of the Lean-side lists always succeeds; the `malloc`
  failure branches of the C code are noted where they matter.
* Machine integers: the actor counters are C `int`s that start at 0 and
  are only incremented, and the configured counts are `unsigned char` /
  `unsigned int`, so all of them are modelled as `Nat`.  `strtoul`'s
  `unsigned long` result is reduced `% 2 ^ 64` and the cast to
  `unsigned short` is `% 65536`.
-/

/-- `GekkoPlayerType` from gekkonet.h: the role of a registered actor. -/
inductive GekkoPlayerType where
  | LocalPlayer
  | RemotePlayer
  | Spectator
deriving DecidableEq, Repr

/-- Observable external calls made by the adapter: engine entry points,
host callbacks, and the two internally observable publications of the
current-input pointer. -/
inductive Act where
  | gekkoNetworkPoll
  | sessionEvents
  | invalidateInput
  | publishInput
  | runFrame
  | saveCb (capacity : Nat)
  | loadCb (len : Nat)
  | gekkoAddActor (t : GekkoPlayerType) (addr : Option String)
  | gekkoAddLocalInput
  | gekkoSetLocalDelay (handle : Int) (delay : Nat)
  | gekkoDestroy
deriving DecidableEq, Repr

/-- `GekkoConfig` as filled in by `ra_gekkonet_init` (the subset of fields
the wrapper copies from its params). -/
structure GekkoConfig where
  num_players : Nat
  max_spectators : Nat
  input_prediction_window : Nat
  spectator_delay : Nat
  input_size : Nat
  state_size : Nat
  limited_saving : Bool
  post_sync_joining : Bool
  desync_detection : Bool
deriving DecidableEq, Repr

/-- `ra_gekkonet_params_t` from netplay_gekkonet.h. -/
structure ra_gekkonet_params where
  num_players : Nat
  max_spectators : Nat
  input_prediction_window : Nat
  spectator_delay : Nat
  input_size : Nat
  state_size : Nat
  port : Nat
  limited_saving : Bool
  post_sync_joining : Bool
  desync_detection : Bool
deriving DecidableEq, Repr

/-- `ra_gekkonet_ctx_t` from netplay_gekkonet.h.  Pointer-valued fields
(`session`, `adapter`, the callback pointers) are modelled by their
null/non-null status; `current_input_buf` is the owned byte buffer
(`none` = not allocated); `current_input` records whether the published
current-input pointer is non-null (when non-null it always equals
`current_input_buf` in the C code). -/
structure ra_gekkonet_ctx where
  session : Bool
  adapter : Bool
  cfg : GekkoConfig
  bound_port : Nat
  save_cb : Bool
  load_cb : Bool
  run_frame_cb : Bool
  session_event_cb : Bool
  state_size : Nat
  input_size : Nat
  current_input_buf : Option (List Nat)
  current_input : Bool
  remote_addrs : List String
  local_actor_count : Nat
  remote_actor_count : Nat
  ready_for_state : Bool
  owns_adapter : Bool
  active : Bool
deriving DecidableEq, Repr

/-- The all-zero `GekkoConfig` produced by `memset`. -/
def zeroGekkoConfig : GekkoConfig :=
  ⟨0, 0, 0, 0, 0, 0, false, false, false⟩

/-- The context after `memset(ctx, 0, sizeof(*ctx))`. -/
def ra_gekkonet_ctx_zero : ra_gekkonet_ctx :=
  ⟨false, false, zeroGekkoConfig, 0, false, false, false, false,
   0, 0, none, false, [], 0, 0, false, false, false⟩

/-- `ra_gekkonet_addr_known`: linear scan of the remembered remote
addresses with `strcmp`.  (The C function returns `true` when `ctx` or
`addr` is null; callers in the model never pass null.) -/
def ra_gekkonet_addr_known (ctx : ra_gekkonet_ctx) (addr : String) : Bool :=
  ctx.remote_addrs.any (fun a => a == addr)

/-- `ra_gekkonet_remember_addr`: idempotent insert into the address
registry.  Growth of the backing array and the `malloc` of the copy are
modelled as always succeeding (on `realloc`/`malloc` failure the C code
silently skips the insertion). -/
def ra_gekkonet_remember_addr (ctx : ra_gekkonet_ctx) (addr : String) :
    ra_gekkonet_ctx :=
  if ra_gekkonet_addr_known ctx addr then ctx
  else { ctx with remote_addrs := ctx.remote_addrs ++ [addr] }

/-- `ra_gekkonet_add_actor`.  `engine_handle` is the oracle for the
external `gekko_add_actor` call: `none` = engine failure (returns a
negative handle), `some h` = engine success with handle `h ≥ 0`.
Returns the new context, the returned handle, and the trace of engine
calls made. -/
def ra_gekkonet_add_actor (ctx : ra_gekkonet_ctx) (type : GekkoPlayerType)
    (addr_string : Option String) (engine_handle : Option Nat) :
    ra_gekkonet_ctx × Int × List Act :=
  if ctx.session = false then (ctx, -1, [])
  else if type = GekkoPlayerType.RemotePlayer ∧
          ctx.cfg.num_players ≤ ctx.remote_actor_count + ctx.local_actor_count then
    (ctx, -1, [])
  else
    match engine_handle with
    | none => (ctx, -1, [Act.gekkoAddActor type addr_string])
    | some h =>
        let ctx1 :=
          match type with
          | GekkoPlayerType.LocalPlayer =>
              { ctx with local_actor_count := ctx.local_actor_count + 1 }
          | GekkoPlayerType.RemotePlayer =>
              let c := { ctx with remote_actor_count := ctx.remote_actor_count + 1 }
              match addr_string with
              | some s => if s = "" then c else ra_gekkonet_remember_addr c s
              | none => c
          | GekkoPlayerType.Spectator => ctx
        (ctx1, (h : Int), [Act.gekkoAddActor type addr_string])

/-- The `isspace` characters skipped by `strtoul`. -/
def ra_gekkonet_isspace (c : Char) : Bool :=
  c = ' ' || c = '\t' || c = '\n' || c = '\r' || c = '\x0b' || c = '\x0c'

/-- Decimal value of a digit string. -/
def digitsVal (cs : List Char) : Nat :=
  cs.foldl (fun a c => a * 10 + (c.toNat - 48)) 0

/-- Modelled from the spec and the C standard library contract: `strtoul`
with base 10 on a NUL-terminated string (the function itself is libc
code, not part of this repository).  Skips whitespace, accepts an
optional sign, consumes a maximal digit prefix (value clamped to
`ULONG_MAX` on overflow, 0 if there are no digits), and for a leading
minus returns the negation modulo 2^64. -/
def ra_strtoul10 (cs : List Char) : Nat :=
  let core : List Char → Nat := fun ds =>
    let v := digitsVal (ds.takeWhile Char.isDigit)
    if v ≤ 2 ^ 64 - 1 then v else 2 ^ 64 - 1
  match cs.dropWhile ra_gekkonet_isspace with
  | '-' :: rest => (2 ^ 64 - core rest % 2 ^ 64) % 2 ^ 64
  | '+' :: rest => core rest
  | other => core other

/-- Index of the last occurrence of `c` (`strrchr`). -/
def lastIdxOf (c : Char) : List Char → Option Nat
  | [] => none
  | x :: xs =>
      match lastIdxOf c xs with
      | some i => some (i + 1)
      | none => if x = c then some 0 else none

/-- `ra_gekkonet_parse_addr`: parses a `host:port` address of `s.length`
bytes.  Rejects an empty or `≥ 128`-byte address (the internal `buf[128]`
bound) and an address whose last colon is missing or leading.  The host
is truncated to the 63 bytes that fit the caller's `host[64]`; the port
is `strtoul` of the text after the colon, cast to `unsigned short`.
Returns `none` on rejection, otherwise `some (host, port)`. -/
def ra_gekkonet_parse_addr (s : List Char) : Option (List Char × Nat) :=
  if s.length = 0 ∨ 128 ≤ s.length then none
  else
    match lastIdxOf ':' s with
    | none => none
    | some i =>
        if i = 0 then none
        else some ((s.take i).take 63, ra_strtoul10 (s.drop (i + 1)) % 65536)

/-- Modelled from the spec and the C standard library contract:
`inet_pton(AF_INET, s, ...)` succeeds exactly on a dotted-decimal
quad — four non-empty all-digit fields of at most 3 characters, each of
value at most 255 (libc code, not part of this repository). -/
def ra_inet_pton4 (host : List Char) : Bool :=
  let parts := host.splitOn '.'
  decide (parts.length = 4) &&
    parts.all (fun p =>
      !p.isEmpty && decide (p.length ≤ 3) && p.all Char.isDigit &&
        decide (digitsVal p ≤ 255))

/-- `ra_gekkonet_udp_send`.  `addr` is the `GekkoNetAddress` (`none`
when the address or its data pointer is null, otherwise the `size`
bytes it designates); `dataPresent`/`length` mirror the payload pointer
and length arguments.  Returns the `(host, port)` destination handed to
`sendto` when a datagram is transmitted, `none` when the send is
dropped. -/
def ra_gekkonet_udp_send (adapterPresent : Bool) (addr : Option (List Char))
    (dataPresent : Bool) (length : Int) : Option (List Char × Nat) :=
  match addr with
  | none => none
  | some s =>
      if adapterPresent = false ∨ dataPresent = false ∨ length ≤ 0 then none
      else
        match ra_gekkonet_parse_addr s with
        | none => none
        | some (host, port) =>
            if ra_inet_pton4 host then some (host, port) else none

/-- One received-datagram step of `ra_gekkonet_udp_receive`, for a
datagram whose formatted source address is `src`: the auto-discovery
check and (conditional) Remote registration performed for that datagram
before its result record is appended.  `engine_handle` is the oracle for
the engine call inside `ra_gekkonet_add_actor`. -/
def ra_gekkonet_udp_receive_step (ctx : ra_gekkonet_ctx) (src : String)
    (engine_handle : Option Nat) : ra_gekkonet_ctx × List Act :=
  if ra_gekkonet_addr_known ctx src = false ∧
     ctx.remote_actor_count + ctx.local_actor_count < ctx.cfg.num_players then
    let r := ra_gekkonet_add_actor ctx GekkoPlayerType.RemotePlayer (some src)
               engine_handle
    (r.1, r.2.2)
  else (ctx, [])

/-- `ra_gekkonet_init`.  `save_cb`/`load_cb` model the presence of the
callback pointers; `engine_ok`, `buf_ok`, `adapter_ok` are the oracles
for `gekko_create`, `calloc` of the input buffer, and
`ra_gekkonet_udp_adapter_create`.  Returns the resulting context, the
boolean result, and the trace of engine calls. -/
def ra_gekkonet_init (params : ra_gekkonet_params) (save_cb load_cb : Bool)
    (engine_ok buf_ok adapter_ok : Bool) :
    ra_gekkonet_ctx × Bool × List Act :=
  let ctx0 := { ra_gekkonet_ctx_zero with
                save_cb := save_cb
                load_cb := load_cb
                state_size := params.state_size
                input_size := params.input_size }
  if engine_ok = false then (ctx0, false, [])
  else
    let ctx1 := { ctx0 with
                  session := true
                  cfg := ⟨params.num_players, params.max_spectators,
                          params.input_prediction_window, params.spectator_delay,
                          params.input_size, params.state_size,
                          params.limited_saving, params.post_sync_joining,
                          params.desync_detection⟩ }
    if buf_ok = false then
      ({ ctx1 with session := false }, false, [Act.gekkoDestroy])
    else
      let ctx2 := { ctx1 with
                    current_input_buf := some (List.replicate params.input_size 0)
                    current_input := true
                    ready_for_state := false }
      if adapter_ok = false then
        ({ ctx2 with session := false }, false, [Act.gekkoDestroy])
      else
        ({ ctx2 with adapter := true, owns_adapter := true, active := true },
         true, [])

/-- `ra_gekkonet_deinit`: no-op unless active; destroys the engine,
destroys the owned adapter, frees the registry and the input buffer. -/
def ra_gekkonet_deinit (ctx : ra_gekkonet_ctx) : ra_gekkonet_ctx × List Act :=
  if ctx.active = false then (ctx, [])
  else
    ({ ctx with
       session := false
       adapter := if ctx.owns_adapter then false else ctx.adapter
       remote_addrs := []
       current_input_buf := none
       current_input := false
       owns_adapter := false
       active := false
       local_actor_count := 0
       remote_actor_count := 0 },
     if ctx.session then [Act.gekkoDestroy] else [])

/-- `ra_gekkonet_push_local_input`: requires a session and a non-null
blob pointer, then forwards to `gekko_add_local_input`. -/
def ra_gekkonet_push_local_input (ctx : ra_gekkonet_ctx) (actor_handle : Int)
    (input_blob : Bool) : Bool × List Act :=
  if ctx.session = false ∨ input_blob = false then (false, [])
  else (true, [Act.gekkoAddLocalInput])

/-- `ra_gekkonet_set_local_delay`: requires a session, then forwards to
`gekko_set_local_delay`. -/
def ra_gekkonet_set_local_delay (ctx : ra_gekkonet_ctx) (actor_handle : Int)
    (delay_frames : Nat) : List Act :=
  if ctx.session = false then []
  else [Act.gekkoSetLocalDelay actor_handle delay_frames]

/-- `ra_gekkonet_get_current_input`: the published current-input pointer
(`none` when absent). -/
def ra_gekkonet_get_current_input (ctx : ra_gekkonet_ctx) : Option (List Nat) :=
  if ctx.current_input then ctx.current_input_buf else none

/-- A `SaveEvent` payload: `state_ptr`/`state_len` model the two engine
pointers (`state_len = none` is a null length pointer, `some v` a
pointer to the value `v`); `cb_ok` is the oracle for the host save
callback's return value. -/
structure GekkoSaveEvent where
  frame : Int
  state_ptr : Bool
  state_len : Option Nat
  checksum_ptr : Bool
  cb_ok : Bool
deriving DecidableEq, Repr

/-- A `LoadEvent` payload; `cb_ok` is the oracle for the host load
callback. -/
structure GekkoLoadEvent where
  frame : Int
  state_ptr : Bool
  state_len : Nat
  cb_ok : Bool
deriving DecidableEq, Repr

/-- An `AdvanceEvent` payload: `inputs = none` is a null input pointer,
otherwise the `input_len` bytes the engine supplies (the list length is
the event's `input_len`). -/
structure GekkoAdvanceEvent where
  frame : Int
  inputs : Option (List Nat)
  rolling_back : Bool
deriving DecidableEq, Repr

/-- A `GekkoGameEvent` as delivered by `gekko_update_session`. -/
inductive GekkoGameEvent where
  | save (e : GekkoSaveEvent)
  | load (e : GekkoLoadEvent)
  | advance (e : GekkoAdvanceEvent)
  | empty
deriving DecidableEq, Repr

/-- `ra_gekkonet_handle_save`: requires the callback and both event
pointers; clamps `*state_len` down to `ctx.state_size`; invokes the host
save callback with the clamped capacity; marks readiness only on
callback success. -/
def ra_gekkonet_handle_save (ctx : ra_gekkonet_ctx) (ev : GekkoSaveEvent) :
    ra_gekkonet_ctx × List Act :=
  if ctx.save_cb = false then (ctx, [])
  else
    match ev.state_len with
    | none => (ctx, [])
    | some req =>
        if ev.state_ptr = false then (ctx, [])
        else
          let clamped := if ctx.state_size < req then ctx.state_size else req
          if ev.cb_ok = false then (ctx, [Act.saveCb clamped])
          else ({ ctx with ready_for_state := true }, [Act.saveCb clamped])

/-- `ra_gekkonet_handle_load`: requires the callback; refuses while
`ready_for_state` is false; requires a state pointer and non-zero
length; never changes `ready_for_state`. -/
def ra_gekkonet_handle_load (ctx : ra_gekkonet_ctx) (ev : GekkoLoadEvent) :
    ra_gekkonet_ctx × List Act :=
  if ctx.load_cb = false then (ctx, [])
  else if ctx.ready_for_state = false then (ctx, [])
  else if ev.state_ptr = false ∨ ev.state_len = 0 then (ctx, [])
  else (ctx, [Act.loadCb ev.state_len])

/-- `ra_gekkonet_handle_advance`: requires the owned buffer and the
engine input pointer; copies the payload into the buffer (zero-filling
the tail when the payload is short, truncating when it is long);
publishes the current-input pointer, invokes the run-frame callback if
present, then marks readiness. -/
def ra_gekkonet_handle_advance (ctx : ra_gekkonet_ctx) (ev : GekkoAdvanceEvent) :
    ra_gekkonet_ctx × List Act :=
  match ctx.current_input_buf, ev.inputs with
  | some _, some payload =>
      let newbuf :=
        if payload.length < ctx.input_size then
          payload ++ List.replicate (ctx.input_size - payload.length) 0
        else payload.take ctx.input_size
      ({ ctx with
         current_input_buf := some newbuf
         current_input := true
         ready_for_state := true },
       Act.publishInput :: (if ctx.run_frame_cb then [Act.runFrame] else []))
  | _, _ => (ctx, [])

/-- The `switch (ev->type)` of `ra_gekkonet_process_game_events`. -/
def ra_gekkonet_dispatch (ctx : ra_gekkonet_ctx) (ev : GekkoGameEvent) :
    ra_gekkonet_ctx × List Act :=
  match ev with
  | GekkoGameEvent.save e => ra_gekkonet_handle_save ctx e
  | GekkoGameEvent.load e => ra_gekkonet_handle_load ctx e
  | GekkoGameEvent.advance e => ra_gekkonet_handle_advance ctx e
  | GekkoGameEvent.empty => (ctx, [])

/-- The event loop of `ra_gekkonet_process_game_events`. -/
def ra_gekkonet_dispatch_list :
    ra_gekkonet_ctx → List GekkoGameEvent → ra_gekkonet_ctx × List Act
  | ctx, [] => (ctx, [])
  | ctx, ev :: rest =>
      let r := ra_gekkonet_dispatch ctx ev
      let r2 := ra_gekkonet_dispatch_list r.1 rest
      (r2.1, r.2 ++ r2.2)

/-- `ra_gekkonet_process_game_events`: requires a session; nulls the
published current-input pointer, then drains the events
`gekko_update_session` delivered (here the parameter `events`). -/
def ra_gekkonet_process_game_events (ctx : ra_gekkonet_ctx)
    (events : List GekkoGameEvent) : ra_gekkonet_ctx × List Act :=
  if ctx.session = false then (ctx, [])
  else
    let r := ra_gekkonet_dispatch_list { ctx with current_input := false } events
    (r.1, Act.invalidateInput :: r.2)

/-- `ra_gekkonet_update`: the per-tick entry point.  Requires a session
and the active flag; then `gekko_network_poll`, session-event
forwarding (`ra_gekkonet_process_session_events`, collapsed to one trace
marker since its payloads are forwarded verbatim), and game-event
dispatch, in that order.  `events` is the oracle for what
`gekko_update_session` returns this tick. -/
def ra_gekkonet_update (ctx : ra_gekkonet_ctx) (events : List GekkoGameEvent) :
    ra_gekkonet_ctx × List Act :=
  if ctx.session = false ∨ ctx.active = false then (ctx, [])
  else
    let r := ra_gekkonet_process_game_events ctx events
    (r.1, Act.gekkoNetworkPoll :: Act.sessionEvents :: r.2)

/-- Sample parameters used by concrete instantiations: 2 players,
16-byte inputs, 256-byte states. -/
def pSample : ra_gekkonet_params :=
  ⟨2, 0, 2, 0, 16, 256, 7000, false, false, false⟩

/-- A context produced by a fully successful `init` with `pSample`. -/
def ctxSample : ra_gekkonet_ctx :=
  (ra_gekkonet_init pSample true true true true true).1

/-- A ready variant of the sample context, for concrete instantiation. -/
def ctxReady : ra_gekkonet_ctx :=
  { ctxSample with ready_for_state := true }

/-- Single-player sample parameters for capacity experiments. -/
def pOne : ra_gekkonet_params :=
  ⟨1, 0, 2, 0, 16, 256, 7000, false, false, false⟩

/-- A context produced by a fully successful `init` with `pOne`
(player capacity 1). -/
def ctxOne : ra_gekkonet_ctx :=
  (ra_gekkonet_init pOne true true true true true).1

/-- The context after two successful Local registrations on `ctxOne`. -/
def ctxTwoLocals : ra_gekkonet_ctx :=
  (ra_gekkonet_add_actor
    (ra_gekkonet_add_actor ctxOne GekkoPlayerType.LocalPlayer none (some 0)).1
    GekkoPlayerType.LocalPlayer none (some 1)).1

/-- `ra_gekkonet_set_run_frame_cb`: installs (or clears) the run-frame
callback pointer. -/
def ra_gekkonet_set_run_frame_cb (ctx : ra_gekkonet_ctx) (cb : Bool) :
    ra_gekkonet_ctx :=
  { ctx with run_frame_cb := cb }

/-- The sample context with a run-frame callback installed. -/
def ctxRun : ra_gekkonet_ctx :=
  ra_gekkonet_set_run_frame_cb ctxSample true

/-- C1: for every Save event carrying a non-null state pointer and a
non-null requested-length pointer, the handler invokes the host save
callback with the requested length clamped down to the configured
`state_size`, so the host never receives a capacity argument greater
than `state_size`. -/
theorem C1_save_capacity_clamped (ctx : ra_gekkonet_ctx) (ev : GekkoSaveEvent)
    (req : Nat) (hcb : ctx.save_cb = true) (hptr : ev.state_ptr = true)
    (hlen : ev.state_len = some req) :
    (ra_gekkonet_handle_save ctx ev).2 = [Act.saveCb (min req ctx.state_size)] ∧
    ∀ cap, Act.saveCb cap ∈ (ra_gekkonet_handle_save ctx ev).2 →
      cap ≤ ctx.state_size := by
  have hmin : (if ctx.state_size < req then ctx.state_size else req) =
      min req ctx.state_size := by
    rcases lt_or_ge ctx.state_size req with h | h
    · rw [if_pos h, min_eq_right h.le]
    · rw [if_neg (not_lt.mpr h), min_eq_left h]
  have htr : (ra_gekkonet_handle_save ctx ev).2 =
      [Act.saveCb (min req ctx.state_size)] := by
    unfold ra_gekkonet_handle_save
    rw [hlen]
    cases hok : ev.cb_ok <;> simp [hcb, hptr, hok, hmin]
  refine ⟨htr, fun cap hmem => ?_⟩
  rw [htr] at hmem
  simp only [List.mem_singleton, Act.saveCb.injEq] at hmem
  exact hmem ▸ min_le_right _ _

/-- Witness for C1 at `state_size = 256` and requested length 1024. -/
theorem C1_save_capacity_clamped_witness :
    ((ra_gekkonet_handle_save ctxSample ⟨0, true, some 1024, true, true⟩).2 =
        [Act.saveCb (min 1024 ctxSample.state_size)] ∧
      ∀ cap, Act.saveCb cap ∈
          (ra_gekkonet_handle_save ctxSample ⟨0, true, some 1024, true, true⟩).2 →
        cap ≤ ctxSample.state_size) ∧
    (ra_gekkonet_handle_save ctxSample ⟨0, true, some 1024, true, true⟩).2 =
      [Act.saveCb 256] :=
  ⟨C1_save_capacity_clamped ctxSample ⟨0, true, some 1024, true, true⟩ 1024
      (by decide) (by decide) (by decide),
   by decide⟩

/-- C2: for every Advance event with a non-null input pointer, when the
engine-supplied length `L` (the payload length) is below `input_size`
the new buffer has the payload in bytes `[0, L)` and zeros in
`[L, input_size)`; when `L ≥ input_size` the buffer is exactly the first
`input_size` payload bytes. -/
theorem C2_advance_input_copy (ctx : ra_gekkonet_ctx) (ev : GekkoAdvanceEvent)
    (buf payload : List Nat)
    (hbuf : ctx.current_input_buf = some buf) (hin : ev.inputs = some payload) :
    ∃ nb, (ra_gekkonet_handle_advance ctx ev).1.current_input_buf = some nb ∧
      (payload.length < ctx.input_size →
        nb.length = ctx.input_size ∧
        (∀ i, i < payload.length → nb[i]? = payload[i]?) ∧
        (∀ i, payload.length ≤ i → i < ctx.input_size → nb[i]? = some 0)) ∧
      (ctx.input_size ≤ payload.length → nb = payload.take ctx.input_size) := by
  unfold ra_gekkonet_handle_advance
  rw [hbuf, hin]
  by_cases h : payload.length < ctx.input_size
  · refine ⟨payload ++ List.replicate (ctx.input_size - payload.length) 0,
      by simp [h], fun _ => ⟨?_, fun i hi => ?_, fun i hL hU => ?_⟩,
      fun h2 => absurd h (not_lt.mpr h2)⟩
    · simp only [List.length_append, List.length_replicate]
      omega
    · exact List.getElem?_append_left hi
    · rw [List.getElem?_append_right hL, List.getElem?_replicate]
      rw [if_pos (by omega)]
  · refine ⟨payload.take ctx.input_size, by simp [h],
      fun h2 => absurd h2 h, fun _ => rfl⟩

/-- Witness for C2: `input_size = 16`, a 4-byte payload `[1, 2, 3, 4]`. -/
theorem C2_advance_input_copy_witness :
    (∃ nb, (ra_gekkonet_handle_advance ctxSample
        ⟨0, some [1, 2, 3, 4], false⟩).1.current_input_buf = some nb ∧
      ((4 : Nat) < ctxSample.input_size →
        nb.length = ctxSample.input_size ∧
        (∀ i, i < (4 : Nat) → nb[i]? = [1, 2, 3, 4][i]?) ∧
        (∀ i, (4 : Nat) ≤ i → i < ctxSample.input_size → nb[i]? = some 0)) ∧
      (ctxSample.input_size ≤ (4 : Nat) →
        nb = [1, 2, 3, 4].take ctxSample.input_size)) ∧
    (ra_gekkonet_handle_advance ctxSample
        ⟨0, some [1, 2, 3, 4], false⟩).1.current_input_buf =
      some [1, 2, 3, 4, 0, 0, 0, 0, 0, 0, 0, 0, 0, 0, 0, 0] :=
  ⟨by
    have h := C2_advance_input_copy ctxSample ⟨0, some [1, 2, 3, 4], false⟩
      (List.replicate 16 0) [1, 2, 3, 4] (by decide) (by decide)
    simpa using h,
   by decide⟩

/-- C9: inserting into the address registry is idempotent — for an
unknown address, remembering it twice leaves exactly one entry for it,
and remembering an already-known address is a no-op. -/
theorem C9_remember_addr_idempotent (ctx : ra_gekkonet_ctx) (a : String)
    (hk : ra_gekkonet_addr_known ctx a = false) :
    (ra_gekkonet_remember_addr (ra_gekkonet_remember_addr ctx a) a).remote_addrs.count a
        = 1 ∧
    ra_gekkonet_remember_addr (ra_gekkonet_remember_addr ctx a) a =
      ra_gekkonet_remember_addr ctx a ∧
    (∀ c : ra_gekkonet_ctx, ra_gekkonet_addr_known c a = true →
      ra_gekkonet_remember_addr c a = c) := by
  have hnotmem : a ∉ ctx.remote_addrs := by
    intro hmem
    have htrue : ra_gekkonet_addr_known ctx a = true := by
      simp [ra_gekkonet_addr_known]
      exact hmem
    rw [htrue] at hk
    simp at hk
  have hrem : ra_gekkonet_remember_addr ctx a =
      { ctx with remote_addrs := ctx.remote_addrs ++ [a] } := by
    unfold ra_gekkonet_remember_addr
    rw [hk]
    simp
  have hnoop : ∀ c : ra_gekkonet_ctx, ra_gekkonet_addr_known c a = true →
      ra_gekkonet_remember_addr c a = c := by
    intro c hc
    simp [ra_gekkonet_remember_addr, hc]
  have hknown1 : ra_gekkonet_addr_known (ra_gekkonet_remember_addr ctx a) a = true := by
    rw [hrem]
    simp [ra_gekkonet_addr_known]
  have hsecond := hnoop _ hknown1
  refine ⟨?_, hsecond, hnoop⟩
  rw [hsecond, hrem]
  show List.count a (ctx.remote_addrs ++ [a]) = 1
  rw [List.count_append, List.count_eq_zero.mpr hnotmem]
  simp

/-- Witness for C9 on the empty registry of a fresh session and the
address `10.0.0.2:7000`. -/
theorem C9_remember_addr_idempotent_witness :
    ((ra_gekkonet_remember_addr (ra_gekkonet_remember_addr ctxSample
        "10.0.0.2:7000") "10.0.0.2:7000").remote_addrs.count "10.0.0.2:7000" = 1 ∧
      ra_gekkonet_remember_addr (ra_gekkonet_remember_addr ctxSample
          "10.0.0.2:7000") "10.0.0.2:7000" =
        ra_gekkonet_remember_addr ctxSample "10.0.0.2:7000" ∧
      (∀ c : ra_gekkonet_ctx,
        ra_gekkonet_addr_known c "10.0.0.2:7000" = true →
        ra_gekkonet_remember_addr c "10.0.0.2:7000" = c)) ∧
    (ra_gekkonet_remember_addr ctxSample "10.0.0.2:7000").remote_addrs =
      ["10.0.0.2:7000"] :=
  ⟨C9_remember_addr_idempotent ctxSample "10.0.0.2:7000" (by decide),
   by decide⟩

/-- `ra_gekkonet_handle_load` never changes the context. -/
lemma handle_load_ctx_eq (ctx : ra_gekkonet_ctx) (ev : GekkoLoadEvent) :
    (ra_gekkonet_handle_load ctx ev).1 = ctx := by
  unfold ra_gekkonet_handle_load
  split
  · rfl
  split
  · rfl
  split
  · rfl
  rfl

/-- `ra_gekkonet_handle_save` never clears `ready_for_state`. -/
lemma handle_save_ready_mono (ctx : ra_gekkonet_ctx) (ev : GekkoSaveEvent)
    (h : ctx.ready_for_state = true) :
    (ra_gekkonet_handle_save ctx ev).1.ready_for_state = true := by
  unfold ra_gekkonet_handle_save
  cases hc : ctx.save_cb
  · simp [hc, h]
  · cases hsl : ev.state_len
    · simp [hc, hsl, h]
    · cases hp : ev.state_ptr
      · simp [hc, hsl, hp, h]
      · cases hok : ev.cb_ok <;> simp [hc, hsl, hp, hok, h]

/-- `ra_gekkonet_handle_advance` never clears `ready_for_state`. -/
lemma handle_advance_ready_mono (ctx : ra_gekkonet_ctx) (ev : GekkoAdvanceEvent)
    (h : ctx.ready_for_state = true) :
    (ra_gekkonet_handle_advance ctx ev).1.ready_for_state = true := by
  unfold ra_gekkonet_handle_advance
  cases hb : ctx.current_input_buf <;> cases hi : ev.inputs <;> simp [hb, hi, h]

/-- No dispatched game event clears `ready_for_state`. -/
lemma dispatch_ready_mono (ctx : ra_gekkonet_ctx) (ev : GekkoGameEvent)
    (h : ctx.ready_for_state = true) :
    (ra_gekkonet_dispatch ctx ev).1.ready_for_state = true := by
  cases ev with
  | save e => exact handle_save_ready_mono ctx e h
  | load e => rw [ra_gekkonet_dispatch, handle_load_ctx_eq]; exact h
  | advance e => exact handle_advance_ready_mono ctx e h
  | empty => exact h

/-- No sequence of dispatched game events clears `ready_for_state`. -/
lemma dispatch_list_ready_mono (evs : List GekkoGameEvent) :
    ∀ ctx : ra_gekkonet_ctx, ctx.ready_for_state = true →
      (ra_gekkonet_dispatch_list ctx evs).1.ready_for_state = true := by
  induction evs with
  | nil => intro ctx h; exact h
  | cons ev rest ih =>
      intro ctx h
      show (ra_gekkonet_dispatch_list ctx (ev :: rest)).1.ready_for_state = true
      unfold ra_gekkonet_dispatch_list
      exact ih _ (dispatch_ready_mono ctx ev h)

/-- C3: `ready_for_state` starts false after every init outcome; while
it is false a Load event is refused without invoking (or tracing) the
host load callback; a successful Save sets it; a completing Advance sets
it; no dispatched game event (and hence no tick) resets it; and a Save
with valid pointers is accepted (callback invoked) regardless of
readiness, so a Save after a successful Advance is accepted. -/
theorem C3_ready_for_state_machine (params : ra_gekkonet_params)
    (scb lcb eo bo ao : Bool) (c1 c2 c3 c4 c5 : ra_gekkonet_ctx)
    (lev : GekkoLoadEvent) (sev : GekkoSaveEvent) (aev : GekkoAdvanceEvent)
    (gev : GekkoGameEvent) (evs : List GekkoGameEvent)
    (req : Nat) (buf payload : List Nat) :
    (ra_gekkonet_init params scb lcb eo bo ao).1.ready_for_state = false ∧
    (c1.ready_for_state = false → ra_gekkonet_handle_load c1 lev = (c1, [])) ∧
    (c2.save_cb = true → sev.state_ptr = true → sev.state_len = some req →
      (sev.cb_ok = true → (ra_gekkonet_handle_save c2 sev).1.ready_for_state = true) ∧
      (ra_gekkonet_handle_save c2 sev).2 ≠ []) ∧
    (c3.current_input_buf = some buf → aev.inputs = some payload →
      (ra_gekkonet_handle_advance c3 aev).1.ready_for_state = true) ∧
    (c4.ready_for_state = true →
      (ra_gekkonet_dispatch c4 gev).1.ready_for_state = true) ∧
    (c5.ready_for_state = true →
      (ra_gekkonet_update c5 evs).1.ready_for_state = true) := by
  refine ⟨?_, ?_, ?_, ?_, ?_, ?_⟩
  · cases eo <;> cases bo <;> cases ao <;>
      simp [ra_gekkonet_init, ra_gekkonet_ctx_zero]
  · intro hready
    unfold ra_gekkonet_handle_load
    cases hc : c1.load_cb <;> simp [hc, hready]
  · intro hcb hptr hlen
    constructor
    · intro hok
      unfold ra_gekkonet_handle_save
      rw [hlen]
      simp [hcb, hptr, hok]
    · unfold ra_gekkonet_handle_save
      rw [hlen]
      cases hok : sev.cb_ok <;> simp [hcb, hptr, hok]
  · intro hbuf hin
    unfold ra_gekkonet_handle_advance
    rw [hbuf, hin]
  · exact dispatch_ready_mono c4 gev
  · intro hready
    unfold ra_gekkonet_update
    split
    · exact hready
    · unfold ra_gekkonet_process_game_events
      split
      · exact hready
      · exact dispatch_list_ready_mono evs _ hready

/-- Witness for C3 at concrete contexts and events. -/
theorem C3_ready_for_state_machine_witness :
    (ra_gekkonet_init pSample true true true true true).1.ready_for_state = false ∧
    ra_gekkonet_handle_load ctxSample ⟨0, true, 64, true⟩ = (ctxSample, []) ∧
    (ra_gekkonet_handle_save ctxSample ⟨0, true, some 100, true, true⟩).1.ready_for_state
      = true ∧
    (ra_gekkonet_handle_save ctxSample ⟨0, true, some 100, true, true⟩).2 ≠ [] ∧
    (ra_gekkonet_handle_advance ctxSample ⟨0, some [5, 6], false⟩).1.ready_for_state
      = true ∧
    (ra_gekkonet_dispatch ctxReady GekkoGameEvent.empty).1.ready_for_state = true ∧
    (ra_gekkonet_update ctxReady []).1.ready_for_state = true := by
  have h := C3_ready_for_state_machine pSample true true true true true
    ctxSample ctxSample ctxSample ctxReady ctxReady
    ⟨0, true, 64, true⟩ ⟨0, true, some 100, true, true⟩ ⟨0, some [5, 6], false⟩
    GekkoGameEvent.empty [] 100 (List.replicate 16 0) [5, 6]
  exact ⟨h.1, h.2.1 (by decide),
    (h.2.2.1 (by decide) (by decide) (by decide)).1 (by decide),
    (h.2.2.1 (by decide) (by decide) (by decide)).2,
    h.2.2.2.1 (by decide) (by decide),
    h.2.2.2.2.1 (by decide), h.2.2.2.2.2 (by decide)⟩

/-- With a null session handle, the per-tick update is a no-op. -/
lemma update_no_session (c : ra_gekkonet_ctx) (h : c.session = false)
    (evs : List GekkoGameEvent) : ra_gekkonet_update c evs = (c, []) := by
  simp [ra_gekkonet_update, h]

/-- With a null session handle, pushing local input fails with no
engine call. -/
lemma push_no_session (c : ra_gekkonet_ctx) (h : c.session = false)
    (handle : Int) (blob : Bool) :
    ra_gekkonet_push_local_input c handle blob = (false, []) := by
  simp [ra_gekkonet_push_local_input, h]

/-- With a null session handle, setting local delay makes no engine
call. -/
lemma delay_no_session (c : ra_gekkonet_ctx) (h : c.session = false)
    (handle : Int) (d : Nat) : ra_gekkonet_set_local_delay c handle d = [] := by
  simp [ra_gekkonet_set_local_delay, h]

/-- With the active flag clear, deinit is a no-op. -/
lemma deinit_inactive (c : ra_gekkonet_ctx) (h : c.active = false) :
    ra_gekkonet_deinit c = (c, []) := by
  simp [ra_gekkonet_deinit, h]

/-- C10: whenever init returns failure, the context it leaves behind has
the active flag false and a null session handle, so every subsequent
update, push_local_input, set_local_delay or deinit on that context is a
no-op making no engine call, and the two result-returning calls return
failure. -/
theorem C10_init_failure_unusable (params : ra_gekkonet_params)
    (scb lcb eo bo ao : Bool)
    (hfail : (ra_gekkonet_init params scb lcb eo bo ao).2.1 = false) :
    (ra_gekkonet_init params scb lcb eo bo ao).1.active = false ∧
    (ra_gekkonet_init params scb lcb eo bo ao).1.session = false ∧
    (∀ evs, ra_gekkonet_update (ra_gekkonet_init params scb lcb eo bo ao).1 evs =
      ((ra_gekkonet_init params scb lcb eo bo ao).1, [])) ∧
    (∀ handle blob, ra_gekkonet_push_local_input
      (ra_gekkonet_init params scb lcb eo bo ao).1 handle blob = (false, [])) ∧
    (∀ handle d, ra_gekkonet_set_local_delay
      (ra_gekkonet_init params scb lcb eo bo ao).1 handle d = []) ∧
    ra_gekkonet_deinit (ra_gekkonet_init params scb lcb eo bo ao).1 =
      ((ra_gekkonet_init params scb lcb eo bo ao).1, []) := by
  have hs : (ra_gekkonet_init params scb lcb eo bo ao).1.session = false ∧
      (ra_gekkonet_init params scb lcb eo bo ao).1.active = false := by
    cases eo with
    | false => simp [ra_gekkonet_init, ra_gekkonet_ctx_zero]
    | true =>
        cases bo with
        | false => simp [ra_gekkonet_init, ra_gekkonet_ctx_zero]
        | true =>
            cases ao with
            | false => simp [ra_gekkonet_init, ra_gekkonet_ctx_zero]
            | true => simp [ra_gekkonet_init] at hfail
  exact ⟨hs.2, hs.1, fun evs => update_no_session _ hs.1 evs,
    fun handle blob => push_no_session _ hs.1 handle blob,
    fun handle d => delay_no_session _ hs.1 handle d,
    deinit_inactive _ hs.2⟩

/-- Witness for C10: init with a failing adapter bind. -/
theorem C10_init_failure_unusable_witness :
    (ra_gekkonet_init pSample true true true true false).1.active = false ∧
    (ra_gekkonet_init pSample true true true true false).1.session = false ∧
    (∀ evs, ra_gekkonet_update (ra_gekkonet_init pSample true true true true false).1
        evs = ((ra_gekkonet_init pSample true true true true false).1, [])) ∧
    (∀ handle blob, ra_gekkonet_push_local_input
      (ra_gekkonet_init pSample true true true true false).1 handle blob =
        (false, [])) ∧
    (∀ handle d, ra_gekkonet_set_local_delay
      (ra_gekkonet_init pSample true true true true false).1 handle d = []) ∧
    ra_gekkonet_deinit (ra_gekkonet_init pSample true true true true false).1 =
      ((ra_gekkonet_init pSample true true true true false).1, []) :=
  C10_init_failure_unusable pSample true true true true false (by decide)

/-- Counterexample to C4 as stated: on an active session configured for
1 player, two Local registrations (the engine accepting both) drive the
Local+Remote actor count to 2, exceeding the configured capacity —
Local registrations are never capacity-checked. -/
theorem C4_capacity_invariant_counterexample :
    ctxOne.active = true ∧ ctxOne.cfg.num_players = 1 ∧
    ctxTwoLocals.active = true ∧
    ctxTwoLocals.local_actor_count + ctxTwoLocals.remote_actor_count = 2 ∧
    ctxTwoLocals.cfg.num_players <
      ctxTwoLocals.local_actor_count + ctxTwoLocals.remote_actor_count := by
  decide

/-- `ra_gekkonet_remember_addr` never changes the actor counters. -/
lemma remember_addr_counts (c : ra_gekkonet_ctx) (s : String) :
    (ra_gekkonet_remember_addr c s).remote_actor_count = c.remote_actor_count ∧
    (ra_gekkonet_remember_addr c s).local_actor_count = c.local_actor_count := by
  unfold ra_gekkonet_remember_addr
  split
  · exact ⟨rfl, rfl⟩
  · exact ⟨rfl, rfl⟩

/-- C4 (amended): a Remote registration fails fast — no engine call, no
counter change, failure result — whenever the Local+Remote count has
reached the configured player capacity, and Remote registrations never
drive the Local+Remote count above the capacity; Local registrations,
however, are not capacity-checked (see the counterexample). -/
theorem C4_remote_capacity_amended (ctx : ra_gekkonet_ctx) (addr : Option String)
    (er : Option Nat) :
    (ctx.cfg.num_players ≤ ctx.remote_actor_count + ctx.local_actor_count →
      ra_gekkonet_add_actor ctx GekkoPlayerType.RemotePlayer addr er =
        (ctx, -1, [])) ∧
    (ctx.remote_actor_count + ctx.local_actor_count ≤ ctx.cfg.num_players →
      (ra_gekkonet_add_actor ctx GekkoPlayerType.RemotePlayer addr er).1.remote_actor_count +
        (ra_gekkonet_add_actor ctx GekkoPlayerType.RemotePlayer addr er).1.local_actor_count
        ≤ ctx.cfg.num_players) := by
  constructor
  · intro hcap
    unfold ra_gekkonet_add_actor
    cases hs : ctx.session
    · simp [hs]
    · simp [hs, hcap]
  · intro hle
    unfold ra_gekkonet_add_actor
    cases hs : ctx.session
    · simpa [hs] using hle
    · by_cases hcap : ctx.cfg.num_players ≤
          ctx.remote_actor_count + ctx.local_actor_count
      · simpa [hs, hcap] using hle
      · cases er with
        | none => simpa [hs, hcap] using hle
        | some h =>
            cases addr with
            | none => simp [hs, hcap]; omega
            | some s =>
                by_cases hempty : s = ""
                · simp [hs, hcap, hempty]; omega
                · simp [hs, hcap, hempty,
                    (remember_addr_counts _ s).1, (remember_addr_counts _ s).2]
                  omega

/-- Witness for C4 (amended): a full single-player session refuses a
Remote actor, and a Remote registration from an under-capacity session
stays within capacity. -/
theorem C4_remote_capacity_amended_witness :
    ((ctxTwoLocals.cfg.num_players ≤
        ctxTwoLocals.remote_actor_count + ctxTwoLocals.local_actor_count →
      ra_gekkonet_add_actor ctxTwoLocals GekkoPlayerType.RemotePlayer
          (some "9.9.9.9:1") none = (ctxTwoLocals, -1, [])) ∧
      (ctxTwoLocals.remote_actor_count + ctxTwoLocals.local_actor_count ≤
          ctxTwoLocals.cfg.num_players →
        (ra_gekkonet_add_actor ctxTwoLocals GekkoPlayerType.RemotePlayer
            (some "9.9.9.9:1") none).1.remote_actor_count +
          (ra_gekkonet_add_actor ctxTwoLocals GekkoPlayerType.RemotePlayer
              (some "9.9.9.9:1") none).1.local_actor_count
          ≤ ctxTwoLocals.cfg.num_players)) ∧
    ra_gekkonet_add_actor ctxTwoLocals GekkoPlayerType.RemotePlayer
        (some "9.9.9.9:1") none = (ctxTwoLocals, -1, []) ∧
    (ra_gekkonet_add_actor ctxOne GekkoPlayerType.RemotePlayer
        (some "9.9.9.9:1") (some 0)).1.remote_actor_count +
      (ra_gekkonet_add_actor ctxOne GekkoPlayerType.RemotePlayer
          (some "9.9.9.9:1") (some 0)).1.local_actor_count
      ≤ ctxOne.cfg.num_players :=
  ⟨C4_remote_capacity_amended ctxTwoLocals (some "9.9.9.9:1") none,
   (C4_remote_capacity_amended ctxTwoLocals (some "9.9.9.9:1") none).1 (by decide),
   (C4_remote_capacity_amended ctxOne (some "9.9.9.9:1") (some 0)).2 (by decide)⟩

/-- C5: on an adapter-bind failure during init, the engine handle is
destroyed and nulled, init returns failure and the session is unusable
(inactive, deinit permanently a no-op) — but the already-allocated
input buffer is NOT freed, contradicting the claim that every
partially-acquired resource is released before init returns. -/
theorem C5_adapter_failure_leaks_input_buffer :
    (ra_gekkonet_init pSample true true true true false).2.1 = false ∧
    (ra_gekkonet_init pSample true true true true false).2.2 =
      [Act.gekkoDestroy] ∧
    (ra_gekkonet_init pSample true true true true false).1.session = false ∧
    (ra_gekkonet_init pSample true true true true false).1.active = false ∧
    (ra_gekkonet_init pSample true true true true false).1.current_input_buf =
      some (List.replicate 16 0) ∧
    ra_gekkonet_deinit (ra_gekkonet_init pSample true true true true false).1 =
      ((ra_gekkonet_init pSample true true true true false).1, []) := by
  decide

/-- Counterexample to C6 as stated: in a tick of an active session the
very first action is the network poll — the current-input pointer is
only invalidated afterwards (at the start of game-event processing), not
at the start of the tick before network polling begins. -/
theorem C6_invalidation_order_counterexample :
    (ra_gekkonet_update ctxRun
        [GekkoGameEvent.advance ⟨0, some (List.replicate 16 1), false⟩]).2 =
      [Act.gekkoNetworkPoll, Act.sessionEvents, Act.invalidateInput,
       Act.publishInput, Act.runFrame] ∧
    (ra_gekkonet_update ctxRun
        [GekkoGameEvent.advance ⟨0, some (List.replicate 16 1), false⟩]).2.head? =
      some Act.gekkoNetworkPoll ∧
    Act.invalidateInput ∉ (ra_gekkonet_update ctxRun
        [GekkoGameEvent.advance ⟨0, some (List.replicate 16 1), false⟩]).2.take 1 := by
  decide

/-- The save handler never publishes the current-input pointer. -/
lemma handle_save_no_publish (ctx : ra_gekkonet_ctx) (ev : GekkoSaveEvent) :
    Act.publishInput ∉ (ra_gekkonet_handle_save ctx ev).2 := by
  unfold ra_gekkonet_handle_save
  cases hc : ctx.save_cb
  · simp
  · cases hsl : ev.state_len
    · simp
    · cases hp : ev.state_ptr
      · simp
      · cases hok : ev.cb_ok <;> simp

/-- The load handler never publishes the current-input pointer. -/
lemma handle_load_no_publish (ctx : ra_gekkonet_ctx) (ev : GekkoLoadEvent) :
    Act.publishInput ∉ (ra_gekkonet_handle_load ctx ev).2 := by
  unfold ra_gekkonet_handle_load
  split
  · simp
  split
  · simp
  split
  · simp
  · simp

/-- C6 (amended): per tick the trace is network poll, then session-event
forwarding, then the invalidation of the current-input pointer, and only
then the dispatched events' actions; the pointer is published only by an
Advance, immediately before the run-frame callback; Save and Load never
publish it; and a tick that dispatches no Advance leaves the pointer
absent. -/
theorem C6_input_publication_amended (ctx : ra_gekkonet_ctx)
    (evs : List GekkoGameEvent) (sev : GekkoSaveEvent) (lev : GekkoLoadEvent)
    (aev : GekkoAdvanceEvent) (buf payload : List Nat)
    (hs : ctx.session = true) (ha : ctx.active = true) :
    (∃ rest, (ra_gekkonet_update ctx evs).2 =
      Act.gekkoNetworkPoll :: Act.sessionEvents :: Act.invalidateInput :: rest) ∧
    (ctx.run_frame_cb = true → ctx.current_input_buf = some buf →
      aev.inputs = some payload →
      (ra_gekkonet_handle_advance ctx aev).2 = [Act.publishInput, Act.runFrame]) ∧
    Act.publishInput ∉ (ra_gekkonet_handle_save ctx sev).2 ∧
    Act.publishInput ∉ (ra_gekkonet_handle_load ctx lev).2 ∧
    ra_gekkonet_get_current_input (ra_gekkonet_update ctx []).1 = none := by
  refine ⟨?_, ?_, handle_save_no_publish ctx sev, handle_load_no_publish ctx lev, ?_⟩
  · refine ⟨(ra_gekkonet_dispatch_list { ctx with current_input := false } evs).2, ?_⟩
    simp [ra_gekkonet_update, ra_gekkonet_process_game_events, hs, ha]
  · intro hrf hbuf hin
    unfold ra_gekkonet_handle_advance
    rw [hbuf, hin]
    simp [hrf]
  · simp [ra_gekkonet_update, ra_gekkonet_process_game_events,
      ra_gekkonet_dispatch_list, ra_gekkonet_get_current_input, hs, ha]

/-- Witness for C6 (amended) on the sample session with a run-frame
callback and one Advance event. -/
theorem C6_input_publication_amended_witness :
    ((∃ rest, (ra_gekkonet_update ctxRun
        [GekkoGameEvent.advance ⟨0, some [7], false⟩]).2 =
      Act.gekkoNetworkPoll :: Act.sessionEvents :: Act.invalidateInput :: rest) ∧
      (ra_gekkonet_handle_advance ctxRun ⟨0, some [7], false⟩).2 =
        [Act.publishInput, Act.runFrame] ∧
      Act.publishInput ∉ (ra_gekkonet_handle_save ctxRun
        ⟨0, true, some 10, true, true⟩).2 ∧
      Act.publishInput ∉ (ra_gekkonet_handle_load ctxRun ⟨0, true, 10, true⟩).2 ∧
      ra_gekkonet_get_current_input (ra_gekkonet_update ctxRun []).1 = none) := by
  have h := C6_input_publication_amended ctxRun
    [GekkoGameEvent.advance ⟨0, some [7], false⟩]
    ⟨0, true, some 10, true, true⟩ ⟨0, true, 10, true⟩ ⟨0, some [7], false⟩
    (List.replicate 16 0) [7] (by decide) (by decide)
  exact ⟨h.1, h.2.1 (by decide) (by decide) (by decide),
    h.2.2.1, h.2.2.2.1, h.2.2.2.2⟩

/-- Address parsing rejects an empty or oversized address and an address
with a missing or leading (last) colon. -/
lemma parse_addr_rejects (s : List Char)
    (h : lastIdxOf ':' s = none ∨ lastIdxOf ':' s = some 0 ∨
         s.length = 0 ∨ 128 ≤ s.length) :
    ra_gekkonet_parse_addr s = none := by
  unfold ra_gekkonet_parse_addr
  by_cases hl : s.length = 0 ∨ 128 ≤ s.length
  · rw [if_pos hl]
  · rw [if_neg hl]
    rcases h with h | h | h | h
    · rw [h]
    · rw [h]
      simp
    · exact absurd (Or.inl h) hl
    · exact absurd (Or.inr h) hl

/-- Counterexample to C7 as stated: the address `1.2.3.4:abc` has an
unparsable port, yet the send is not dropped — `strtoul` yields 0 and a
datagram is transmitted to `1.2.3.4` port 0. -/
theorem C7_unparsable_port_counterexample :
    ra_gekkonet_udp_send true (some ("1.2.3.4:abc".toList)) true 5 =
      some ("1.2.3.4".toList, 0) ∧
    ra_gekkonet_udp_send true (some ("1.2.3.4:abc".toList)) true 5 ≠ none := by
  decide

/-- C7 (amended): a send whose destination address has a missing colon,
a leading (last) colon, or a length of zero or at/above the internal
128-byte bound is silently dropped (no datagram transmitted, no error
reported — the send path returns nothing); a null address is likewise
dropped.  An unparsable port, by contrast, is not rejected (see the
counterexample: it sends to port 0). -/
theorem C7_malformed_send_dropped (ap dp : Bool) (len : Int) (s : List Char)
    (h : lastIdxOf ':' s = none ∨ lastIdxOf ':' s = some 0 ∨
         s.length = 0 ∨ 128 ≤ s.length) :
    ra_gekkonet_udp_send ap (some s) dp len = none ∧
    ra_gekkonet_udp_send ap none dp len = none := by
  constructor
  · show (if ap = false ∨ dp = false ∨ len ≤ 0 then none
      else
        match ra_gekkonet_parse_addr s with
        | none => none
        | some (host, port) =>
            if ra_inet_pton4 host = true then some (host, port) else none) = none
    by_cases hg : ap = false ∨ dp = false ∨ len ≤ 0
    · rw [if_pos hg]
    · rw [if_neg hg, parse_addr_rejects s h]
  · rfl

/-- Witness for C7 (amended): an address without any colon is dropped. -/
theorem C7_malformed_send_dropped_witness :
    ra_gekkonet_udp_send true (some ("10.0.0.2".toList)) true 8 = none ∧
    ra_gekkonet_udp_send true none true 8 = none :=
  C7_malformed_send_dropped true true 8 ("10.0.0.2".toList) (by decide)

/-- C8: for a received datagram whose source address is unknown, while
the Local+Remote count is below the configured capacity, the receive
path requests Remote registration of the source address through the
owning session (exactly one engine `add_actor` call); an engine failure
leaves the session unchanged (logged, non-fatal); on success the address
is remembered and the Remote count incremented; the network poll —
within which reception and hence registration happen — is the first
action of the tick, before any game-event dispatch; and the restriction
is strict: a datagram from an already-known source, or one arriving when
the Local+Remote count has reached the capacity, produces no
registration request at all (no engine call, session unchanged). -/
theorem C8_auto_discovery_registers_sender (ctx : ra_gekkonet_ctx) (src : String)
    (er : Option Nat) (evs : List GekkoGameEvent) (h : Nat)
    (hs : ctx.session = true)
    (hk : ra_gekkonet_addr_known ctx src = false)
    (hcap : ctx.remote_actor_count + ctx.local_actor_count < ctx.cfg.num_players) :
    (ra_gekkonet_udp_receive_step ctx src er).2 =
      [Act.gekkoAddActor GekkoPlayerType.RemotePlayer (some src)] ∧
    (ra_gekkonet_udp_receive_step ctx src none).1 = ctx ∧
    (src ≠ "" →
      (ra_gekkonet_udp_receive_step ctx src (some h)).1.remote_addrs =
        ctx.remote_addrs ++ [src] ∧
      (ra_gekkonet_udp_receive_step ctx src (some h)).1.remote_actor_count =
        ctx.remote_actor_count + 1) ∧
    (ctx.active = true → ∃ rest, (ra_gekkonet_update ctx evs).2 =
      Act.gekkoNetworkPoll :: rest) ∧
    (∀ (c2 : ra_gekkonet_ctx) (s2 : String) (er2 : Option Nat),
      ra_gekkonet_addr_known c2 s2 = true →
      ra_gekkonet_udp_receive_step c2 s2 er2 = (c2, [])) ∧
    (∀ (c2 : ra_gekkonet_ctx) (s2 : String) (er2 : Option Nat),
      c2.cfg.num_players ≤ c2.remote_actor_count + c2.local_actor_count →
      ra_gekkonet_udp_receive_step c2 s2 er2 = (c2, [])) := by
  have hnotcap : ¬ ctx.cfg.num_players ≤
      ctx.remote_actor_count + ctx.local_actor_count := not_le.mpr hcap
  refine ⟨?_, ?_, ?_, ?_, ?_, ?_⟩
  · unfold ra_gekkonet_udp_receive_step
    rw [if_pos ⟨hk, hcap⟩]
    cases er with
    | none => simp [ra_gekkonet_add_actor, hs, hnotcap]
    | some h2 => simp [ra_gekkonet_add_actor, hs, hnotcap]
  · unfold ra_gekkonet_udp_receive_step
    rw [if_pos ⟨hk, hcap⟩]
    simp [ra_gekkonet_add_actor, hs, hnotcap]
  · intro hne
    have hk2 : (ctx.remote_addrs.any (fun a => a == src)) = false := hk
    unfold ra_gekkonet_udp_receive_step
    rw [if_pos ⟨hk, hcap⟩]
    simp [ra_gekkonet_add_actor, hs, hnotcap, hne,
      ra_gekkonet_remember_addr, ra_gekkonet_addr_known, hk2]
  · intro ha
    refine ⟨Act.sessionEvents ::
      (ra_gekkonet_process_game_events ctx evs).2, ?_⟩
    simp [ra_gekkonet_update, hs, ha]
  · intro c2 s2 er2 hknown
    unfold ra_gekkonet_udp_receive_step
    rw [if_neg]
    intro hc
    rw [hknown] at hc
    exact Bool.noConfusion hc.1
  · intro c2 s2 er2 hfull
    unfold ra_gekkonet_udp_receive_step
    rw [if_neg]
    intro hc
    exact absurd hc.2 (not_lt.mpr hfull)

/-- Witness for C8 on the sample session and source `10.0.0.9:7001`,
including the no-registration cases: the same source once remembered,
and an at-capacity session. -/
theorem C8_auto_discovery_registers_sender_witness :
    ((ra_gekkonet_udp_receive_step ctxSample "10.0.0.9:7001" (some 0)).2 =
      [Act.gekkoAddActor GekkoPlayerType.RemotePlayer (some "10.0.0.9:7001")] ∧
    (ra_gekkonet_udp_receive_step ctxSample "10.0.0.9:7001" none).1 = ctxSample ∧
    (ra_gekkonet_udp_receive_step ctxSample "10.0.0.9:7001" (some 0)).1.remote_addrs =
      ctxSample.remote_addrs ++ ["10.0.0.9:7001"] ∧
    (ra_gekkonet_udp_receive_step ctxSample "10.0.0.9:7001"
        (some 0)).1.remote_actor_count = ctxSample.remote_actor_count + 1 ∧
    (∃ rest, (ra_gekkonet_update ctxSample []).2 =
      Act.gekkoNetworkPoll :: rest) ∧
    ra_gekkonet_udp_receive_step
        (ra_gekkonet_remember_addr ctxSample "10.0.0.9:7001") "10.0.0.9:7001"
        (some 1) =
      (ra_gekkonet_remember_addr ctxSample "10.0.0.9:7001", []) ∧
    ra_gekkonet_udp_receive_step ctxTwoLocals "10.0.0.9:7001" (some 1) =
      (ctxTwoLocals, [])) := by
  have hw := C8_auto_discovery_registers_sender ctxSample "10.0.0.9:7001"
    (some 0) [] 0 (by decide) (by decide) (by decide)
  exact ⟨hw.1, hw.2.1, (hw.2.2.1 (by decide)).1, (hw.2.2.1 (by decide)).2,
    hw.2.2.2.1 (by decide),
    hw.2.2.2.2.1 (ra_gekkonet_remember_addr ctxSample "10.0.0.9:7001")
      "10.0.0.9:7001" (some 1) (by decide),
    hw.2.2.2.2.2 ctxTwoLocals "10.0.0.9:7001" (some 1) (by decide)⟩
